import Mathlib

/-!
Verification development for the ThinkEx clusters backend
(`api/main.py`, `api/routes/cluster_routes.py`, `api/database/service.py`,
`api/services/ably_manager.py`, `api/models/database_models.py`).

The repository contains two parallel implementations of the same HTTP
operations: an in-memory one in `api/main.py` (Pydantic models stored in the
process, guarded by a lock) and a database-backed one in
`api/routes/cluster_routes.py` that delegates to `DatabaseService` in
`api/database/service.py`.  Both are embedded here: the database rows become
plain Lean structures, a `Store` is the triple of row tables in insertion
order, SQL `first()` is `List.head?` of the filtered rows, and SQL `ILIKE`
is an executable case-insensitive LIKE-pattern matcher.  Route handlers
become total functions returning `Except (status × detail)` together with
the post-state and the list of broadcast messages they publish.

Python string primitives are modelled executably over the character data of
a `String` (`pyStrip` for `str.strip()`, `pyLower` for `str.lower()`,
`strEmpty` for emptiness/falsiness of a string), so that every definition
evaluates on concrete inputs.
-/

/-- Python `str.strip()`: drop leading and trailing whitespace. -/
def pyStrip (s : String) : String :=
  ⟨((s.data.dropWhile Char.isWhitespace).reverse.dropWhile Char.isWhitespace).reverse⟩

/-- Python `str.lower()` (character-wise lowering). -/
def pyLower (s : String) : String :=
  ⟨s.data.map Char.toLower⟩

/-- Python falsiness of a string: `not s` is true exactly when `s` is empty. -/
def strEmpty (s : String) : Bool :=
  s.data.isEmpty

/-- One step of SQL LIKE matching with explicit fuel.  `%` matches any
(possibly empty) sequence, `_` matches exactly one character, every other
pattern character matches case-insensitively (ILIKE).  The fuel only serves
to make the definition structurally recursive; `likeMatch` always supplies
enough fuel (each recursive call shrinks `pattern.length + text.length`). -/
def likeCharsF : Nat → List Char → List Char → Bool
  | 0, _, _ => false
  | _ + 1, [], s => s.isEmpty
  | fuel + 1, p :: ps, s =>
    if p = '%' then
      likeCharsF fuel ps s ||
        (match s with
         | [] => false
         | _ :: s' => likeCharsF fuel (p :: ps) s')
    else
      match s with
      | [] => false
      | c :: s' =>
        if p = '_' then likeCharsF fuel ps s'
        else (p.toLower == c.toLower) && likeCharsF fuel ps s'

/-- SQL LIKE pattern matching (case-insensitive), on character lists. -/
def likeMatch (pattern text : List Char) : Bool :=
  likeCharsF (pattern.length + text.length + 1) pattern text

/-- `sqlIlike text pattern` models the SQLAlchemy expression
`column.ilike(pattern)` evaluated on a stored `text`. -/
def sqlIlike (text pattern : String) : Bool :=
  likeMatch pattern.data text.data

/-- A string with no SQL wildcard characters, i.e. one on which LIKE
matching degenerates to case-insensitive equality. -/
def noWildcard (s : String) : Bool :=
  s.data.all (fun c => c != '%' && c != '_')

/-- Case-insensitive equality of two strings (character-wise lowering). -/
def ciEq (a b : String) : Bool :=
  a.data.map Char.toLower == b.data.map Char.toLower

/-! ## Database rows (`api/models/database_models.py`)

`QAPairDB` in `database_models.py` declares `id`, `qa_id`, `question`,
`answer`, `created_at`, `card_type`, `cluster_id`, `source_note_id`; it does
NOT declare the `order` column that `DatabaseService.create_qa_pair`,
`reorder_qa_pairs` and the conversion helpers read and write.  The service
layer is the embedded module here, so the row carries the `order` field the
service code manipulates; the mismatch with `database_models.py` is recorded
where it decides a claim.  `created_at`, `card_type` and the source-note
fields play no role in any claim and are omitted. -/

structure QAPairDB where
  id : Nat
  qa_id : String
  question : String
  answer : String
  order : Nat
  cluster_id : Option Nat
deriving DecidableEq, Repr

structure ClusterDB where
  id : Nat
  title : String
  cluster_list_id : Option Nat
deriving DecidableEq, Repr

structure ClusterListDB where
  id : Nat
  list_id : String
  title : String
deriving DecidableEq, Repr

/-- The three row tables, each in insertion order (SQL `first()` on an
unordered select is modelled as the head of the table filtered by the
WHERE clause). -/
structure Store where
  cluster_lists : List ClusterListDB
  clusters : List ClusterDB
  qas : List QAPairDB
deriving DecidableEq, Repr

namespace DatabaseService

/-- `get_cluster_list_by_id`: select on `ClusterListDB.list_id`, `.first()`. -/
def get_cluster_list_by_id (st : Store) (list_id : String) : Option ClusterListDB :=
  (st.cluster_lists.filter (fun cl => cl.list_id == list_id)).head?

/-- `get_cluster_by_id`: select on `ClusterDB.id`, `.first()`. -/
def get_cluster_by_id (st : Store) (cluster_id : Nat) : Option ClusterDB :=
  (st.clusters.filter (fun c => c.id == cluster_id)).head?

/-- `get_cluster_by_title`: select on `ClusterDB.cluster_list_id` equality and
`ClusterDB.title.ilike(title.strip())`, `.first()`.  Note that only the
query is stripped, and that ILIKE treats `%` and `_` in the query as
wildcards. -/
def get_cluster_by_title (st : Store) (cluster_list_id : Nat) (title : String) :
    Option ClusterDB :=
  (st.clusters.filter
    (fun c => c.cluster_list_id == some cluster_list_id && sqlIlike c.title (pyStrip title))).head?

/-- `get_qa_pair_by_id`: select on `QAPairDB.qa_id`, `.first()` — a global
index over all QA rows, with no condition on the owning cluster or list. -/
def get_qa_pair_by_id (st : Store) (qa_id : String) : Option QAPairDB :=
  (st.qas.filter (fun q => q.qa_id == qa_id)).head?

/-- The `cluster.qas` ORM relationship: all QA rows whose `cluster_id`
references the cluster. -/
def cluster_qas (st : Store) (c : ClusterDB) : List QAPairDB :=
  st.qas.filter (fun q => q.cluster_id == some c.id)

/-- `create_cluster`: inserts a new cluster row.  The fresh primary key is a
parameter (the database assigns it). -/
def create_cluster (st : Store) (fresh_id : Nat) (cluster_list_id : Nat) (title : String) :
    ClusterDB × Store :=
  let c : ClusterDB := { id := fresh_id, title := title, cluster_list_id := some cluster_list_id }
  (c, { st with clusters := st.clusters ++ [c] })

/-- `create_qa_pair`: the source computes
`max_order = session.exec(select(QAPairDB.order).where(cluster_id == cid)).first() or 0`
— i.e. the `order` of the FIRST matching row (or 0 when there is none, and 0
when that first value is itself 0, which `x or 0` leaves at 0) — and inserts
the new row with `order = max_order + 1` and stripped question/answer.
Fresh primary key and `qa_id` (a uuid in the source) are parameters.
In the real program this call never completes: `QAPairDB` in
`database_models.py` declares no `order` attribute, so the very first
`select(QAPairDB.order)` raises `AttributeError` and the calling route
answers 500 (the route models that crash, see `Routes.add_qa`).  This
definition embeds the numeric computation the statement was written to
perform, so that its order arithmetic can be exhibited on its own. -/
def create_qa_pair (st : Store) (fresh_id : Nat) (fresh_qa_id : String)
    (cluster_id : Nat) (question answer : String) : QAPairDB × Store :=
  let max_order :=
    (((st.qas.filter (fun q => q.cluster_id == some cluster_id)).map QAPairDB.order).head?).getD 0
  let qa : QAPairDB :=
    { id := fresh_id, qa_id := fresh_qa_id, question := pyStrip question, answer := pyStrip answer,
      order := max_order + 1, cluster_id := some cluster_id }
  (qa, { st with qas := st.qas ++ [qa] })

/-- `delete_cluster`: `session.delete(cluster); session.commit()`.
`ClusterDB.qas` is a plain SQLModel `Relationship` with no delete cascade and
`QAPairDB.cluster_id` is nullable, so SQLAlchemy de-associates the child QA
rows (sets their foreign key to NULL) instead of deleting them: the cluster
row disappears, the QA rows remain with `cluster_id := none`. -/
def delete_cluster (st : Store) (c : ClusterDB) : Store :=
  { st with
    clusters := st.clusters.filter (fun x => x.id != c.id),
    qas := st.qas.map (fun q =>
      if q.cluster_id == some c.id then { q with cluster_id := none } else q) }

/-- `move_qa_pair`: sets `qa_pair.cluster_id = new_cluster.id` and commits. -/
def move_qa_pair (st : Store) (qa : QAPairDB) (new_cluster : ClusterDB) : Store :=
  { st with qas := st.qas.map (fun q =>
      if q.id == qa.id then { q with cluster_id := some new_cluster.id } else q) }

/-- `update_qa_pair`: each field is applied only when supplied and non-empty
after strip; returns the updated row (first component) and commits it. -/
def update_qa_pair (st : Store) (qa : QAPairDB) (question answer : Option String) :
    QAPairDB × Store :=
  let q1 := match question with
    | some s => if strEmpty (pyStrip s) then qa else { qa with question := pyStrip s }
    | none => qa
  let q2 := match answer with
    | some s => if strEmpty (pyStrip s) then q1 else { q1 with answer := pyStrip s }
    | none => q1
  (q2, { st with qas := st.qas.map (fun q => if q.id == qa.id then q2 else q) })

/-- `delete_qa_pair`: deletes the row. -/
def delete_qa_pair (st : Store) (qa : QAPairDB) : Store :=
  { st with qas := st.qas.filter (fun q => q.id != qa.id) }

end DatabaseService

/-! ## Broadcast messages

The database-backed routes publish
`{"type": "cluster_list_update", "payload": {"list_id": ...}}` — no
`action` key — while the in-memory handlers in `main.py` publish
`{"type": "knowledge_graph_update", "action": ..., "payload": {...}}`.
Both shapes are captured by one record with an optional `action`. -/

structure BroadcastMsg where
  type : String
  action : Option String
  list_id : String
deriving DecidableEq, Repr

/-- HTTP error: status code and detail string (a raised `HTTPException`). -/
abbrev HErr := Nat × String

namespace Routes

/-! Handlers from `api/routes/cluster_routes.py`.  Each returns either an
`HErr` (a raised `HTTPException`, which leaves the store untouched) or the
response value together with the committed store and the broadcast messages
handed to the Ably manager.  `manager.is_ready()` is taken as true; the
dispatch itself is modelled separately (see `broadcast` below). -/

structure MoveQAResponse where
  message : String
  qa_id : String
  old_cluster_title : String
  new_cluster_title : String
deriving DecidableEq, Repr

/-- `move_qa_to_cluster` (PATCH `/cluster-lists/{id}/qa/{qa_id}/move`).
Resolves the QA by its global id, the destination by ILIKE title within the
named list; never checks that the QA's current cluster belongs to that
list.  Same-cluster moves short-circuit with no state change and no
broadcast. -/
def move_qa_to_cluster (st : Store) (cluster_list_id qa_id : String)
    (new_cluster_title : String) :
    Except HErr (MoveQAResponse × Store × List BroadcastMsg) :=
  let t := pyStrip new_cluster_title
  if strEmpty t then
    .error (400, "new_cluster_title must be non-empty")
  else
    match DatabaseService.get_cluster_list_by_id st cluster_list_id with
    | none => .error (404, "ClusterList with id '" ++ cluster_list_id ++ "' not found.")
    | some db_cluster_list =>
      match DatabaseService.get_qa_pair_by_id st qa_id with
      | none => .error (404, "Q/A with id '" ++ qa_id ++ "' not found.")
      | some qa_pair =>
        let old_cluster_title :=
          match qa_pair.cluster_id with
          | some cid =>
            match DatabaseService.get_cluster_by_id st cid with
            | some c => c.title
            | none => ""
          | none => ""
        match DatabaseService.get_cluster_by_title st db_cluster_list.id t with
        | none =>
          .error (404, "Destination cluster '" ++ t ++ "' not found in list '" ++
            cluster_list_id ++ "'.")
        | some dest_cluster =>
          if qa_pair.cluster_id == some dest_cluster.id then
            .ok ({ message := "Source and destination clusters are the same. No action taken.",
                   qa_id := qa_id, old_cluster_title := old_cluster_title,
                   new_cluster_title := t }, st, [])
          else
            .ok ({ message := "Moved Q/A from '" ++ old_cluster_title ++ "' to '" ++ t ++ "'.",
                   qa_id := qa_id, old_cluster_title := old_cluster_title,
                   new_cluster_title := t },
                 DatabaseService.move_qa_pair st qa_pair dest_cluster,
                 [{ type := "cluster_list_update", action := none, list_id := cluster_list_id }])

/-- `reorder_qas_in_cluster` (PATCH `/cluster-lists/{id}/reorder`).
Validates that the supplied ids and the cluster's current QA ids have the
same length and the same underlying set; on success it broadcasts and
reports success WITHOUT changing any row (the handler never calls
`DatabaseService.reorder_qa_pairs`; its own comment reads "For now, we'll
just validate the QA IDs exist"). -/
def reorder_qas_in_cluster (st : Store) (cluster_list_id : String)
    (cluster_title : String) (ordered_qa_ids : List String) :
    Except HErr (String × Store × List BroadcastMsg) :=
  match DatabaseService.get_cluster_list_by_id st cluster_list_id with
  | none => .error (404, "Cluster list not found")
  | some db_cluster_list =>
    match DatabaseService.get_cluster_by_title st db_cluster_list.id cluster_title with
    | none => .error (404, "Cluster '" ++ cluster_title ++ "' not found")
    | some cluster =>
      let qas := DatabaseService.cluster_qas st cluster
      let qa_ids := qas.map QAPairDB.qa_id
      if ordered_qa_ids.length != qas.length
          || !(ordered_qa_ids.all (fun i => qa_ids.contains i)
               && qa_ids.all (fun i => ordered_qa_ids.contains i)) then
        .error (400, "Mismatched QA items during reorder")
      else
        .ok ("QAs in cluster '" ++ cluster_title ++ "' reordered successfully.", st,
             [{ type := "cluster_list_update", action := none, list_id := cluster_list_id }])

structure UpdateQARequest where
  cluster_list_id : String
  clusterName : String
  qa_id : String
  question : Option String
  answer : Option String
deriving DecidableEq, Repr

structure UpdateQAResponse where
  message : String
  qa_pair : QAPairDB
deriving DecidableEq, Repr

/-- Whether the supplied question is applied: present, non-empty after
strip, and different from the stored question (`update_qa` lines 262-264). -/
def question_changed (payload : UpdateQARequest) (qa : QAPairDB) : Bool :=
  match payload.question with
  | some s => !strEmpty (pyStrip s) && pyStrip s != qa.question
  | none => false

/-- Whether the supplied answer is applied (`update_qa` lines 265-267). -/
def answer_changed (payload : UpdateQARequest) (qa : QAPairDB) : Bool :=
  match payload.answer with
  | some s => !strEmpty (pyStrip s) && pyStrip s != qa.answer
  | none => false

/-- `update_qa` (POST `/update_qa`).  Both exits of its final branch build
their `UpdateQAResponse` through `convert_to_api_qa_pair`
(`cluster_routes.py` lines 272 and 289), which reads `db_qa.order` — an
attribute `QAPairDB` in `database_models.py` never declares — so the real
route raises `AttributeError` there and FastAPI answers 500 in both cases.
The no-change branch crashes BEFORE any mutation or broadcast: the card is
untouched and nothing is published.  The applied-change branch first
commits `update_qa_pair` and awaits the broadcast and only then crashes
while building the response; the model's error result represents the 500
status only, not that committed store or the already-published message —
no claim below depends on that branch. -/
def update_qa (st : Store) (payload : UpdateQARequest) :
    Except HErr (UpdateQAResponse × Store × List BroadcastMsg) :=
  if strEmpty payload.cluster_list_id then
    .error (400, "cluster_list_id must be provided")
  else
    match DatabaseService.get_cluster_list_by_id st payload.cluster_list_id with
    | none => .error (404, "ClusterList with id '" ++ payload.cluster_list_id ++ "' not found.")
    | some db_cluster_list =>
      let cluster_name := pyStrip payload.clusterName
      if strEmpty cluster_name then
        .error (400, "clusterName must be non-empty")
      else if strEmpty payload.qa_id then
        .error (400, "qa_id must be non-empty")
      else if payload.question.isNone && payload.answer.isNone then
        .error (400, "At least one of 'question' or 'answer' must be provided for an update.")
      else
        match DatabaseService.get_cluster_by_title st db_cluster_list.id cluster_name with
        | none =>
          .error (404, "Cluster '" ++ cluster_name ++ "' not found in list '" ++
            payload.cluster_list_id ++ "'.")
        | some cluster =>
          match DatabaseService.get_qa_pair_by_id st payload.qa_id with
          | none =>
            .error (404, "Q/A with id '" ++ payload.qa_id ++ "' not found in cluster '" ++
              cluster_name ++ "'.")
          | some qa_pair =>
            if qa_pair.cluster_id != some cluster.id then
              .error (404, "Q/A with id '" ++ payload.qa_id ++ "' not found in cluster '" ++
                cluster_name ++ "'.")
            else if !question_changed payload qa_pair && !answer_changed payload qa_pair then
              .error (500, "AttributeError: 'QAPairDB' object has no attribute 'order'")
            else
              .error (500, "AttributeError: 'QAPairDB' object has no attribute 'order'")

structure AddQARequest where
  cluster_list_id : String
  clusterName : String
  question : String
  answer : String
deriving DecidableEq, Repr

structure AddQAResponse where
  message : String
  cluster_title : String
  cluster_qas : List QAPairDB
deriving DecidableEq, Repr

/-- `add_qa` (POST `/add_qa`).  After validation the real route resolves
the cluster via the ILIKE title lookup and, when absent, creates and
commits a new cluster row; it then calls `DatabaseService.create_qa_pair`,
whose first statement evaluates `select(QAPairDB.order)` — but `QAPairDB`
in `database_models.py` declares no `order` attribute, so the route raises
`AttributeError` there and FastAPI answers 500, in the created and the
reused branch alike: no broadcast is published and no response is built.
(In the created branch the new cluster row has already been committed by
`create_cluster` when the crash occurs; the model's error result carries
only the 500, not that partially-committed store — no claim below depends
on it.)  The `fresh_*` parameters are the identifiers the database/uuid
would have assigned on the never-reached insert; they are kept so the
handler's interface matches the source signature. -/
def add_qa (st : Store) (fresh_cluster_id fresh_qa_row_id : Nat) (fresh_qa_id : String)
    (payload : AddQARequest) :
    Except HErr (AddQAResponse × Store × List BroadcastMsg) :=
  if strEmpty payload.cluster_list_id then
    .error (400, "cluster_list_id must be provided")
  else
    match DatabaseService.get_cluster_list_by_id st payload.cluster_list_id with
    | none => .error (404, "ClusterList with id '" ++ payload.cluster_list_id ++ "' not found.")
    | some db_cluster_list =>
      let cluster_name := pyStrip payload.clusterName
      if strEmpty cluster_name then
        .error (400, "clusterName must be non-empty")
      else if strEmpty (pyStrip payload.question) then
        .error (400, "question must be non-empty")
      else if strEmpty (pyStrip payload.answer) then
        .error (400, "answer must be non-empty")
      else
        .error (500, "AttributeError: type object 'QAPairDB' has no attribute 'order'")

structure DeleteClusterResponse where
  message : String
  clusterName : String
deriving DecidableEq, Repr

/-- `delete_cluster` (DELETE `/cluster/{cluster_name}`).  Resolves the
cluster by ILIKE title within the named list and calls
`DatabaseService.delete_cluster`, then broadcasts. -/
def delete_cluster (st : Store) (cluster_name cluster_list_id : String) :
    Except HErr (DeleteClusterResponse × Store × List BroadcastMsg) :=
  if strEmpty cluster_list_id then
    .error (400, "cluster_list_id must be provided")
  else
    match DatabaseService.get_cluster_list_by_id st cluster_list_id with
    | none => .error (404, "ClusterList with id '" ++ cluster_list_id ++ "' not found.")
    | some db_cluster_list =>
      let cluster_name_stripped := pyStrip cluster_name
      if strEmpty cluster_name_stripped then
        .error (400, "cluster_name must be non-empty")
      else
        match DatabaseService.get_cluster_by_title st db_cluster_list.id cluster_name_stripped with
        | none => .error (404, "Cluster '" ++ cluster_name_stripped ++ "' not found.")
        | some cluster =>
          .ok ({ message := "Deleted cluster \"" ++ cluster.title ++ "\".",
                 clusterName := cluster.title },
               DatabaseService.delete_cluster st cluster,
               [{ type := "cluster_list_update", action := none, list_id := cluster_list_id }])

end Routes

namespace MainApp

/-! The in-memory implementation from `api/main.py`: Pydantic models held in
the process dictionary `CLUSTER_LISTS`, modelled as a list of `ClusterList`
values looked up by `id` (ids are uuids, unique by construction). -/

structure QAPair where
  qa_id : String
  question : String
  answer : String
deriving DecidableEq, Repr

structure Cluster where
  title : String
  qas : List QAPair
deriving DecidableEq, Repr

structure ClusterList where
  id : String
  title : String
  clusters : List Cluster
deriving DecidableEq, Repr

/-- The loop body of `_find_cluster_idx_case_insensitive`, scanning clusters
from index `i` upward. -/
def findIdxFrom (name_norm : String) : List Cluster → Nat → Option Nat
  | [], _ => none
  | c :: cs, i =>
    if pyLower (pyStrip c.title) == name_norm then some i else findIdxFrom name_norm cs (i + 1)

/-- `_find_cluster_idx_case_insensitive(cluster_list, name)`: normalises the
query by strip+lower, compares against each cluster title strip+lowered, and
returns the index of the first match. -/
def _find_cluster_idx_case_insensitive (cluster_list : ClusterList) (name : String) :
    Option Nat :=
  findIdxFrom (pyLower (pyStrip name)) cluster_list.clusters 0

/-- Whether a stored cluster title matches a query under the `main.py`
normalisation (both sides stripped and lowercased). -/
def titleMatches (c : Cluster) (name : String) : Bool :=
  pyLower (pyStrip c.title) == pyLower (pyStrip name)

/-- Replace the cluster list with the given id (the dict update implicit in
mutating the object stored in `CLUSTER_LISTS`). -/
def putList (store : List ClusterList) (cl : ClusterList) : List ClusterList :=
  store.map (fun x => if x.id == cl.id then cl else x)

/-- Update the element at position `i` (Python `xs[i] = v`). -/
def setAt (xs : List Cluster) (i : Nat) (v : Cluster) : List Cluster :=
  xs.set i v

/-- `main.add_qa`: validates, then either creates a new cluster holding the
new QA and broadcasts `action = "cluster_created"`, or appends the QA to the
existing cluster and broadcasts `action = "qa_added"`. -/
def add_qa (store : List ClusterList) (fresh_qa_id : String)
    (payload : Routes.AddQARequest) :
    Except HErr ((String × Cluster) × List ClusterList × List BroadcastMsg) :=
  if strEmpty payload.cluster_list_id then
    .error (400, "cluster_list_id must be provided")
  else
    match store.find? (fun x => x.id == payload.cluster_list_id) with
    | none => .error (404, "ClusterList with id '" ++ payload.cluster_list_id ++ "' not found.")
    | some cluster_list =>
      let cluster_name := pyStrip payload.clusterName
      if strEmpty cluster_name then
        .error (400, "clusterName must be non-empty")
      else if strEmpty (pyStrip payload.question) then
        .error (400, "question must be non-empty")
      else if strEmpty (pyStrip payload.answer) then
        .error (400, "answer must be non-empty")
      else
        let qa : QAPair :=
          { qa_id := fresh_qa_id, question := pyStrip payload.question,
            answer := pyStrip payload.answer }
        match _find_cluster_idx_case_insensitive cluster_list cluster_name with
        | none =>
          let new_cluster : Cluster := { title := cluster_name, qas := [qa] }
          let cluster_list' :=
            { cluster_list with clusters := cluster_list.clusters ++ [new_cluster] }
          .ok (("Created cluster \"" ++ new_cluster.title ++ "\" and added Q/A.", new_cluster),
               putList store cluster_list',
               [{ type := "knowledge_graph_update", action := some "cluster_created",
                  list_id := cluster_list.id }])
        | some idx =>
          let old := cluster_list.clusters.getD idx { title := "", qas := [] }
          let updated := { old with qas := old.qas ++ [qa] }
          let cluster_list' :=
            { cluster_list with clusters := setAt cluster_list.clusters idx updated }
          .ok (("Added Q/A to cluster \"" ++ updated.title ++ "\".", updated),
               putList store cluster_list',
               [{ type := "knowledge_graph_update", action := some "qa_added",
                  list_id := cluster_list.id }])

/-- Whether the supplied optional field would be applied to the stored value
(`main.update_qa` lines 526 and 530): present, non-empty after strip, and
different from the current value. -/
def fieldChanged (supplied : Option String) (current : String) : Bool :=
  match supplied with
  | some s => !strEmpty (pyStrip s) && pyStrip s != current
  | none => false

/-- Apply one optional field (the conditional assignment in
`main.update_qa`). -/
def applyField (supplied : Option String) (current : String) : String :=
  if fieldChanged supplied current then pyStrip (supplied.getD "") else current

/-- Replace the first QA with the given id (the loop in `main.update_qa`
mutates the first matching element). -/
def updateFirstQA (qa_id : String) (f : QAPair → QAPair) : List QAPair → List QAPair
  | [] => []
  | q :: qs => if q.qa_id == qa_id then f q :: qs else q :: updateFirstQA qa_id f qs

/-- `main.update_qa`: after validation and lookups, applies each supplied
field only when non-empty after strip and different from the current value;
when neither applies it returns "No changes detected." with no state change
and no broadcast, otherwise it commits and broadcasts `qa_updated`. -/
def update_qa (store : List ClusterList) (payload : Routes.UpdateQARequest) :
    Except HErr ((String × QAPair) × List ClusterList × List BroadcastMsg) :=
  if strEmpty payload.cluster_list_id then
    .error (400, "cluster_list_id must be provided")
  else
    match store.find? (fun x => x.id == payload.cluster_list_id) with
    | none => .error (404, "ClusterList with id '" ++ payload.cluster_list_id ++ "' not found.")
    | some cluster_list =>
      let cluster_name := pyStrip payload.clusterName
      if strEmpty cluster_name then
        .error (400, "clusterName must be non-empty")
      else if strEmpty payload.qa_id then
        .error (400, "qa_id must be non-empty")
      else if payload.question.isNone && payload.answer.isNone then
        .error (400, "At least one of 'question' or 'answer' must be provided for an update.")
      else
        match _find_cluster_idx_case_insensitive cluster_list cluster_name with
        | none =>
          .error (404, "Cluster '" ++ cluster_name ++ "' not found in list '" ++
            cluster_list.id ++ "'.")
        | some cluster_idx =>
          let cluster := cluster_list.clusters.getD cluster_idx { title := "", qas := [] }
          match cluster.qas.find? (fun qa => qa.qa_id == payload.qa_id) with
          | none =>
            .error (404, "Q/A with id '" ++ payload.qa_id ++ "' not found in cluster '" ++
              cluster_name ++ "'.")
          | some qa_to_update =>
            if !fieldChanged payload.question qa_to_update.question
                && !fieldChanged payload.answer qa_to_update.answer then
              .ok (("No changes detected.", qa_to_update), store, [])
            else
              let updated : QAPair :=
                { qa_to_update with
                  question := applyField payload.question qa_to_update.question,
                  answer := applyField payload.answer qa_to_update.answer }
              let cluster' :=
                { cluster with qas := updateFirstQA payload.qa_id (fun _ => updated) cluster.qas }
              let cluster_list' :=
                { cluster_list with clusters := setAt cluster_list.clusters cluster_idx cluster' }
              .ok (("Updated Q/A in cluster \"" ++ cluster.title ++ "\".", updated),
                   putList store cluster_list',
                   [{ type := "knowledge_graph_update", action := some "qa_updated",
                      list_id := cluster_list.id }])

end MainApp

/-! ## Notification dispatch (`api/services/ably_manager.py`) -/

/-- Outcome of one call to `channel.publish`: either it returns, or it
raises (any `Exception`). -/
inductive PublishResult where
  | ok
  | failed (err : String)
deriving DecidableEq, Repr

/-- `AblyManager.broadcast`: when the channel is absent it logs and skips;
otherwise it attempts the publish and catches EVERY exception, logging it.
In all cases it returns normally — the result type is a plain log, never an
error. -/
def broadcast (channel : Option (BroadcastMsg → PublishResult)) (message : BroadcastMsg) :
    List String :=
  match channel with
  | none => ["Ably channel not available, skipping broadcast"]
  | some publish =>
    match publish message with
    | .ok => ["Message broadcasted via Ably: " ++ message.type]
    | .failed e => ["Failed to broadcast message via Ably: " ++ e]

/-- Dispatch every message produced by a committed mutation. -/
def dispatchAll (channel : Option (BroadcastMsg → PublishResult))
    (msgs : List BroadcastMsg) : List String :=
  (msgs.map (broadcast channel)).flatten

/-- A committed route result paired with the dispatch of its messages: the
store is already the committed one before `dispatchAll` runs, and the logs
replace the message list in the HTTP-visible result. -/
def runWithDispatch {α : Type} (channel : Option (BroadcastMsg → PublishResult))
    (r : Except HErr (α × Store × List BroadcastMsg)) :
    Except HErr (α × Store × List String) :=
  r.map (fun x => (x.1, x.2.1, dispatchAll channel x.2.2))

/-- Project away the dispatch logs: what the HTTP caller observes. -/
def callerView {α : Type} (r : Except HErr (α × Store × List String)) :
    Except HErr (α × Store) :=
  r.map (fun x => (x.1, x.2.1))

/-- The broadcast messages carried by a successful route result (none when
the handler raised). -/
def emittedMsgs {α : Type} (r : Except HErr (α × Store × List BroadcastMsg)) :
    List BroadcastMsg :=
  match r with
  | .ok x => x.2.2
  | .error _ => []


/-- Modelled from the spec (§4.1): `findClusterByTitle(listId, title)` is a
case-insensitive, whitespace-trimmed lookup returning the first cluster of
the list whose title equals the queried title after trimming and case
folding.  This is the specification-side definition that the code-side
`DatabaseService.get_cluster_by_title` is compared against. -/
def findClusterByTitleSpec (st : Store) (cluster_list_id : Nat) (title : String) :
    Option ClusterDB :=
  (st.clusters.filter
    (fun c => c.cluster_list_id == some cluster_list_id
      && ciEq (pyStrip c.title) (pyStrip title))).head?

/-! ## Claim-level results -/

deriving instance DecidableEq for Except
/-- The concrete store for the C1 evaluation: one list `L1`, one cluster
`Algebra` in it, one QA row belonging to that cluster. -/
def stC1 : Store :=
  { cluster_lists := [⟨1, "L1", "Calculus"⟩],
    clusters := [⟨1, "Algebra", some 1⟩],
    qas := [⟨1, "q1", "Q", "A", 1, some 1⟩] }

/-- C1: `delete_cluster` on a cluster with one card removes the cluster row
and a case-insensitive lookup of the title afterwards returns not-found, but
the card row is NOT deleted: it remains in the `qa_pairs` table with
`cluster_id` set to NULL, contradicting the claimed cascade. -/
theorem C1_delete_cluster_leaves_orphan_card :
    Routes.delete_cluster stC1 "Algebra" "L1" =
      .ok ({ message := "Deleted cluster \"Algebra\".", clusterName := "Algebra" },
           { cluster_lists := [⟨1, "L1", "Calculus"⟩], clusters := [],
             qas := [⟨1, "q1", "Q", "A", 1, none⟩] },
           [⟨"cluster_list_update", none, "L1"⟩])
    ∧ DatabaseService.get_cluster_by_title
        { cluster_lists := [⟨1, "L1", "Calculus"⟩], clusters := [],
          qas := [⟨1, "q1", "Q", "A", 1, none⟩] } 1 "algebra" = none := by
  decide

/-- The concrete store for the C2 evaluation: cluster 1 holds two cards with
orders 2 and 5 (in table order); cluster 2 is empty. -/
def stC2 : Store :=
  { cluster_lists := [⟨1, "L1", "Calculus"⟩],
    clusters := [⟨1, "Algebra", some 1⟩, ⟨2, "Empty", some 1⟩],
    qas := [⟨1, "q1", "Q1", "A1", 2, some 1⟩, ⟨2, "q2", "Q2", "A2", 5, some 1⟩] }

/-- C2: `create_qa_pair` assigns `first-row order + 1`, not `max + 1`:
with stored orders `[2, 5]` the new card gets order 3 (max + 1 would be 6),
and on an empty cluster it gets order 1, not the claimed 0. -/
theorem C2_create_qa_pair_order_not_max_plus_one :
    (DatabaseService.create_qa_pair stC2 3 "q3" 1 "Q3" "A3").1.order = 3
    ∧ ((stC2.qas.filter (fun q => q.cluster_id == some 1)).map QAPairDB.order).max? = some 5
    ∧ (DatabaseService.create_qa_pair stC2 4 "q4" 2 "Q4" "A4").1.order = 1 := by
  decide

/-- The concrete store for the C3 evaluation: cluster `Algebra` holds `q1`
at order 1 and `q2` at order 2. -/
def stC3 : Store :=
  { cluster_lists := [⟨1, "L1", "Calculus"⟩],
    clusters := [⟨1, "Algebra", some 1⟩],
    qas := [⟨1, "q1", "Q1", "A1", 1, some 1⟩, ⟨2, "q2", "Q2", "A2", 2, some 1⟩] }

/-- C3: a reorder request `[q2, q1]` whose id set matches passes validation
and reports success, but the returned store is the input store unchanged:
`q2`'s stored order is still 2, not its index 0 in the supplied sequence
(the handler never calls `DatabaseService.reorder_qa_pairs`). -/
theorem C3_reorder_route_never_writes_positions :
    Routes.reorder_qas_in_cluster stC3 "L1" "Algebra" ["q2", "q1"] =
      .ok ("QAs in cluster 'Algebra' reordered successfully.", stC3,
           [⟨"cluster_list_update", none, "L1"⟩])
    ∧ (stC3.qas.filter (fun q => q.qa_id == "q2")).head?.map QAPairDB.order = some 2 := by
  decide

/-- The concrete store for the C4 counterexample: one cluster `Algebra`. -/
def stC4 : Store :=
  { cluster_lists := [⟨1, "L1", "T"⟩],
    clusters := [⟨1, "Algebra", some 1⟩],
    qas := [] }

/-- C4 counterexample: querying the title `Algebr_` returns the `Algebra`
cluster (ILIKE treats `_` as a single-character wildcard) although no
cluster title equals the query after trimming and case folding — the
claimed "if and only if" fails for `get_cluster_by_title`. -/
theorem C4_ilike_wildcard_counterexample :
    DatabaseService.get_cluster_by_title stC4 1 "Algebr_" = some ⟨1, "Algebra", some 1⟩
    ∧ ∀ c ∈ stC4.clusters, ciEq (pyStrip c.title) (pyStrip "Algebr_") = false := by
  decide

/-- The concrete store for the C5 counterexample: list `L1` with no
clusters at all. -/
def stC5 : Store :=
  { cluster_lists := [⟨1, "L1", "T"⟩], clusters := [], qas := [] }

/-- C5 counterexample: on a list with no clusters, the database-backed
`add_qa` — which the claim says emits a `cluster_created` event — emits no
broadcast message at all: it fails with the 500 `AttributeError` raised
inside `create_qa_pair` on the undeclared `QAPairDB.order`, before any
publish.  The same happens when the cluster already exists (last conjunct,
against a store holding cluster `Algebra`). -/
theorem C5_route_add_qa_no_event_counterexample :
    Routes.add_qa stC5 1 1 "q1" ⟨"L1", "Algebra", "Q", "A"⟩ =
      .error (500, "AttributeError: type object 'QAPairDB' has no attribute 'order'")
    ∧ emittedMsgs (Routes.add_qa stC5 1 1 "q1" ⟨"L1", "Algebra", "Q", "A"⟩) = []
    ∧ DatabaseService.get_cluster_by_title stC5 1 "Algebra" = none
    ∧ Routes.add_qa stC4 1 1 "q1" ⟨"L1", "Algebra", "Q", "A"⟩ =
      .error (500, "AttributeError: type object 'QAPairDB' has no attribute 'order'") := by
  decide

/-! ### Lemmas: LIKE matching without wildcards, and the find-index loop -/

/-- Without wildcard characters in the pattern, LIKE matching (given enough
fuel) is exactly equality of the lowercased character lists. -/
theorem likeCharsF_no_wildcard :
    ∀ (ps : List Char) (fuel : Nat) (ss : List Char), ps.length < fuel →
      (∀ c ∈ ps, c ≠ '%' ∧ c ≠ '_') →
      (likeCharsF fuel ps ss = true ↔ ps.map Char.toLower = ss.map Char.toLower) := by
  intro ps
  induction ps with
  | nil =>
    intro fuel ss hf _
    cases fuel with
    | zero => omega
    | succ f =>
      cases ss with
      | nil => simp [likeCharsF]
      | cons c ss' => simp [likeCharsF, List.isEmpty]
  | cons p ps ih =>
    intro fuel ss hf h
    cases fuel with
    | zero => omega
    | succ f =>
      have hp : p ≠ '%' ∧ p ≠ '_' := h p (List.mem_cons_self p ps)
      have h' : ∀ c ∈ ps, c ≠ '%' ∧ c ≠ '_' := fun c hc => h c (List.mem_cons_of_mem p hc)
      have hf' : ps.length < f := by simpa [List.length_cons, Nat.succ_lt_succ_iff] using hf
      cases ss with
      | nil =>
        simp [likeCharsF, hp.1]
      | cons c ss' =>
        simp only [likeCharsF, if_neg hp.1, if_neg hp.2, Bool.and_eq_true, beq_iff_eq,
          List.map_cons, List.cons.injEq]
        exact and_congr Iff.rfl (ih f ss' hf' h')

/-- `sqlIlike` with a wildcard-free pattern is case-insensitive equality. -/
theorem sqlIlike_no_wildcard (t p : String) (h : noWildcard p = true) :
    sqlIlike t p = ciEq t p := by
  have hl : ∀ c ∈ p.data, c ≠ '%' ∧ c ≠ '_' := by
    intro c hc
    have := (List.all_eq_true.mp h) c hc
    constructor <;> · intro heq; subst heq; simp at this
  have hlen : p.data.length < p.data.length + t.data.length + 1 := by omega
  have hiff := likeCharsF_no_wildcard p.data (p.data.length + t.data.length + 1) t.data hlen hl
  have : sqlIlike t p = true ↔ ciEq t p = true := by
    unfold sqlIlike likeMatch ciEq
    rw [hiff]
    rw [beq_iff_eq]
    exact eq_comm
  exact Bool.eq_iff_iff.mpr this

/-- The scanning loop of `_find_cluster_idx_case_insensitive` returns `none`
exactly when no cluster title matches the normalised query. -/
theorem findIdxFrom_none_iff (nn : String) :
    ∀ (cs : List MainApp.Cluster) (k : Nat),
      (MainApp.findIdxFrom nn cs k = none ↔
        ∀ c ∈ cs, (pyLower (pyStrip c.title) == nn) = false) := by
  intro cs
  induction cs with
  | nil => intro k; simp [MainApp.findIdxFrom]
  | cons c cs ih =>
    intro k
    by_cases hm : (pyLower (pyStrip c.title) == nn) = true
    · simp only [MainApp.findIdxFrom, if_pos hm]
      constructor
      · intro h; cases h
      · intro hall
        have hc := hall c (List.mem_cons_self c cs)
        rw [hm] at hc
        cases hc
    · simp only [MainApp.findIdxFrom, if_neg hm, List.mem_cons]
      rw [ih (k + 1)]
      constructor
      · intro hall c' hc'
        rcases hc' with rfl | hc'
        · exact Bool.eq_false_iff.mpr hm
        · exact hall c' hc'
      · intro hall c' hc'
        exact hall c' (Or.inr hc')

/-- The scanning loop with offset `k` is the offset-0 loop shifted by `k`. -/
theorem findIdxFrom_add (nn : String) :
    ∀ (cs : List MainApp.Cluster) (k : Nat),
      MainApp.findIdxFrom nn cs k = (MainApp.findIdxFrom nn cs 0).map (· + k) := by
  intro cs
  induction cs with
  | nil => intro k; simp [MainApp.findIdxFrom]
  | cons c cs ih =>
    intro k
    by_cases hm : (pyLower (pyStrip c.title) == nn) = true
    · simp [MainApp.findIdxFrom, hm]
    · simp only [MainApp.findIdxFrom, if_neg hm]
      rw [ih (k + 1), ih 1]
      cases MainApp.findIdxFrom nn cs 0 <;> simp
      omega

/-- Soundness of the offset-0 scanning loop: a returned index is in range,
its cluster matches, and no earlier cluster matches. -/
theorem findIdxFrom_zero_some (nn : String) :
    ∀ (cs : List MainApp.Cluster) (i : Nat),
      MainApp.findIdxFrom nn cs 0 = some i →
      i < cs.length
      ∧ (pyLower (pyStrip (cs.getD i ⟨"", []⟩).title) == nn) = true
      ∧ ∀ c ∈ cs.take i, (pyLower (pyStrip c.title) == nn) = false := by
  intro cs
  induction cs with
  | nil => intro i h; simp [MainApp.findIdxFrom] at h
  | cons c cs ih =>
    intro i h
    by_cases hm : (pyLower (pyStrip c.title) == nn) = true
    · simp only [MainApp.findIdxFrom, if_pos hm] at h
      cases h
      exact ⟨Nat.succ_pos _, by rw [List.getD_cons_zero]; exact hm, by simp⟩
    · simp only [MainApp.findIdxFrom, if_neg hm] at h
      rw [findIdxFrom_add nn cs 1] at h
      cases hj : MainApp.findIdxFrom nn cs 0 with
      | none => rw [hj] at h; simp at h
      | some j =>
        rw [hj] at h
        have hji : j + 1 = i := by simpa using h
        subst hji
        obtain ⟨h1, h2, h3⟩ := ih j hj
        refine ⟨by simpa using Nat.succ_lt_succ h1, by rw [List.getD_cons_succ]; exact h2, ?_⟩
        intro c' hc'
        rw [List.take_succ_cons] at hc'
        rcases List.mem_cons.mp hc' with rfl | hc'
        · exact Bool.eq_false_iff.mpr hm
        · exact h3 c' hc'

/-- C4 (amended): the in-memory lookup `_find_cluster_idx_case_insensitive`
returns an index iff some cluster title equals the query after strip and
case fold, and a returned index is always the first match; the
database-backed `get_cluster_by_title` matches the stripped query as a
case-insensitive SQL LIKE pattern against UNstripped stored titles, and
coincides with the specification lookup `findClusterByTitleSpec` whenever
the stripped query contains no SQL wildcard (`%`, `_`) and every stored
title is already stripped. -/
theorem C4_lookup_amended :
    (∀ (cl : MainApp.ClusterList) (name : String),
      (MainApp._find_cluster_idx_case_insensitive cl name = none ↔
         ∀ c ∈ cl.clusters, MainApp.titleMatches c name = false)
      ∧ ∀ i, MainApp._find_cluster_idx_case_insensitive cl name = some i →
          i < cl.clusters.length
          ∧ MainApp.titleMatches (cl.clusters.getD i ⟨"", []⟩) name = true
          ∧ ∀ c ∈ cl.clusters.take i, MainApp.titleMatches c name = false)
    ∧ (∀ (st : Store) (lid : Nat) (title : String),
        noWildcard (pyStrip title) = true →
        (∀ c ∈ st.clusters, pyStrip c.title = c.title) →
        DatabaseService.get_cluster_by_title st lid title = findClusterByTitleSpec st lid title) := by
  constructor
  · intro cl name
    constructor
    · exact findIdxFrom_none_iff (pyLower (pyStrip name)) cl.clusters 0
    · intro i h
      exact findIdxFrom_zero_some (pyLower (pyStrip name)) cl.clusters i h
  · intro st lid title hnw htrim
    unfold DatabaseService.get_cluster_by_title findClusterByTitleSpec
    congr 1
    apply List.filter_congr
    intro c hc
    rw [htrim c hc, sqlIlike_no_wildcard c.title (pyStrip title) hnw]

/-- Witness for `C4_lookup_amended` at a concrete list and store: on
duplicate case-variant titles the returned index 1 is the first match
(index 0 does not match), and the two lookups agree on a wildcard-free
query against stripped stored titles. -/
theorem C4_lookup_amended_witness :
    (1 < ([⟨"Geometry", []⟩, ⟨"algebra", []⟩, ⟨"ALGEBRA", []⟩] : List MainApp.Cluster).length
      ∧ MainApp.titleMatches
          (([⟨"Geometry", []⟩, ⟨"algebra", []⟩, ⟨"ALGEBRA", []⟩] : List MainApp.Cluster).getD 1 ⟨"", []⟩)
          " Algebra " = true
      ∧ ∀ c ∈ ([⟨"Geometry", []⟩, ⟨"algebra", []⟩, ⟨"ALGEBRA", []⟩] : List MainApp.Cluster).take 1,
          MainApp.titleMatches c " Algebra " = false)
    ∧ DatabaseService.get_cluster_by_title stC4 1 " ALGEBRA "
        = findClusterByTitleSpec stC4 1 " ALGEBRA " :=
  ⟨(C4_lookup_amended.1 ⟨"L", "T", [⟨"Geometry", []⟩, ⟨"algebra", []⟩, ⟨"ALGEBRA", []⟩]⟩
      " Algebra ").2 1 (by decide),
   C4_lookup_amended.2 stC4 1 " ALGEBRA " (by decide) (by decide)⟩

/-- Every branch of the database-backed `add_qa` raises: a 400/404
validation error, or the 500 `AttributeError` from `create_qa_pair` on the
undeclared `QAPairDB.order`. -/
theorem add_qa_always_errors (st : Store) (fc fq : Nat) (fid : String)
    (payload : Routes.AddQARequest) :
    ∃ e, Routes.add_qa st fc fq fid payload = Except.error e := by
  unfold Routes.add_qa
  repeat' split
  all_goals try exact ⟨_, rfl⟩
  all_goals (by_cases hA : strEmpty (pyStrip payload.clusterName) = true <;> simp [hA])

/-- C5 (amended): the in-memory `main.add_qa` emits exactly one
`knowledge_graph_update` message whose action is `cluster_created` when the
case-insensitive title lookup finds no cluster (implicit creation) and
`qa_added` when an existing cluster is reused; the database-backed route
`add_qa` never emits any event and never returns success — it raises
before any broadcast (an `AttributeError` 500 inside `create_qa_pair` once
validation and cluster resolution have passed), in the created and the
reused case alike. -/
theorem C5_broadcast_action_amended :
    (∀ (store : List MainApp.ClusterList) (fresh_qa_id : String)
        (payload : Routes.AddQARequest) (cluster_list : MainApp.ClusterList),
      strEmpty payload.cluster_list_id = false →
      store.find? (fun x => x.id == payload.cluster_list_id) = some cluster_list →
      strEmpty (pyStrip payload.clusterName) = false →
      strEmpty (pyStrip payload.question) = false →
      strEmpty (pyStrip payload.answer) = false →
      ∃ r s m, MainApp.add_qa store fresh_qa_id payload = .ok (r, s, [m])
        ∧ m.type = "knowledge_graph_update"
        ∧ m.action = some (if (MainApp._find_cluster_idx_case_insensitive cluster_list
            (pyStrip payload.clusterName)).isNone then "cluster_created" else "qa_added"))
    ∧ (∀ (st : Store) (fc fq : Nat) (fid : String) (payload : Routes.AddQARequest),
        emittedMsgs (Routes.add_qa st fc fq fid payload) = []
        ∧ ∀ r, Routes.add_qa st fc fq fid payload ≠ Except.ok r) := by
  constructor
  · intro store fresh_qa_id payload cluster_list h1 h2 h3 h4 h5
    unfold MainApp.add_qa
    rw [h2]
    simp only [h1, Bool.false_eq_true, if_false, h3, h4, h5]
    cases hidx : MainApp._find_cluster_idx_case_insensitive cluster_list
        (pyStrip payload.clusterName) with
    | none => exact ⟨_, _, _, rfl, rfl, rfl⟩
    | some idx => exact ⟨_, _, _, rfl, rfl, rfl⟩
  · intro st fc fq fid payload
    obtain ⟨e, he⟩ := add_qa_always_errors st fc fq fid payload
    refine ⟨by rw [he]; rfl, fun r hr => ?_⟩
    rw [he] at hr
    cases hr

/-- Witness for `C5_broadcast_action_amended` at a concrete in-memory store:
adding to the case-variant title of an existing cluster. -/
theorem C5_broadcast_action_amended_witness :
    ∃ r s m,
      MainApp.add_qa [⟨"L1", "KB", [⟨"Algebra", []⟩]⟩] "q7" ⟨"L1", " aLgEbRa ", "Q", "A"⟩ =
        .ok (r, s, [m])
      ∧ m.type = "knowledge_graph_update"
      ∧ m.action = some (if (MainApp._find_cluster_idx_case_insensitive
          ⟨"L1", "KB", [⟨"Algebra", []⟩]⟩ (pyStrip " aLgEbRa ")).isNone
          then "cluster_created" else "qa_added") :=
  C5_broadcast_action_amended.1 [⟨"L1", "KB", [⟨"Algebra", []⟩]⟩] "q7"
    ⟨"L1", " aLgEbRa ", "Q", "A"⟩ ⟨"L1", "KB", [⟨"Algebra", []⟩]⟩
    (by decide) (by decide) (by decide) (by decide) (by decide)

/-- C6 counterexample: a no-change update against the database-backed
route (question supplied as a whitespace variant of the stored value,
answer absent) does NOT return success: building the "No changes
detected." response calls `convert_to_api_qa_pair`, which reads the
undeclared `QAPairDB.order`, so the route answers 500 — though the card is
untouched and nothing is broadcast (last two conjuncts restate that the
supplied fields count as unchanged). -/
theorem C6_route_update_qa_500_counterexample :
    Routes.update_qa stC3 ⟨"L1", "Algebra", "q1", some " Q1 ", none⟩ =
      .error (500, "AttributeError: 'QAPairDB' object has no attribute 'order'")
    ∧ emittedMsgs (Routes.update_qa stC3 ⟨"L1", "Algebra", "q1", some " Q1 ", none⟩) = []
    ∧ Routes.question_changed ⟨"L1", "Algebra", "q1", some " Q1 ", none⟩
        ⟨1, "q1", "Q1", "A1", 1, some 1⟩ = false
    ∧ Routes.answer_changed ⟨"L1", "Algebra", "q1", some " Q1 ", none⟩
        ⟨1, "q1", "Q1", "A1", 1, some 1⟩ = false := by
  decide

/-- C6 (amended): for the in-memory `main.update_qa` the claim holds as
stated — a call in which, after stripping, neither supplied field is a
non-empty string different from the stored value returns success with
"No changes detected.", leaves the store unchanged and emits no broadcast.
The database-backed route's no-change branch likewise changes nothing and
broadcasts nothing, but it does not return success: building the response
raises the `convert_to_api_qa_pair` `AttributeError`, so the route answers
500. -/
theorem C6_update_qa_noop_amended :
    (∀ (store : List MainApp.ClusterList) (payload : Routes.UpdateQARequest)
        (cluster_list : MainApp.ClusterList) (cluster_idx : Nat) (qa : MainApp.QAPair),
      strEmpty payload.cluster_list_id = false →
      store.find? (fun x => x.id == payload.cluster_list_id) = some cluster_list →
      strEmpty (pyStrip payload.clusterName) = false →
      strEmpty payload.qa_id = false →
      (payload.question.isNone && payload.answer.isNone) = false →
      MainApp._find_cluster_idx_case_insensitive cluster_list (pyStrip payload.clusterName) =
        some cluster_idx →
      (cluster_list.clusters.getD cluster_idx ⟨"", []⟩).qas.find?
        (fun q => q.qa_id == payload.qa_id) = some qa →
      MainApp.fieldChanged payload.question qa.question = false →
      MainApp.fieldChanged payload.answer qa.answer = false →
      MainApp.update_qa store payload = .ok (("No changes detected.", qa), store, []))
    ∧ (∀ (st : Store) (payload : Routes.UpdateQARequest) (cl : ClusterListDB)
        (cluster : ClusterDB) (qa : QAPairDB),
      strEmpty payload.cluster_list_id = false →
      DatabaseService.get_cluster_list_by_id st payload.cluster_list_id = some cl →
      strEmpty (pyStrip payload.clusterName) = false →
      strEmpty payload.qa_id = false →
      (payload.question.isNone && payload.answer.isNone) = false →
      DatabaseService.get_cluster_by_title st cl.id (pyStrip payload.clusterName) = some cluster →
      DatabaseService.get_qa_pair_by_id st payload.qa_id = some qa →
      (qa.cluster_id != some cluster.id) = false →
      Routes.question_changed payload qa = false →
      Routes.answer_changed payload qa = false →
      Routes.update_qa st payload =
        .error (500, "AttributeError: 'QAPairDB' object has no attribute 'order'")) := by
  constructor
  · intro store payload cluster_list cluster_idx qa h1 h2 h3 h4 h5 h6 h7 h8 h9
    unfold MainApp.update_qa
    rw [h2]
    simp only [List.getD_eq_getElem?_getD] at h7
    simp [h1, h3, h4, h5, h6, h7, h8, h9]
  · intro st payload cl cluster qa h1 h2 h3 h4 h5 h6 h7 h8 h9 h10
    unfold Routes.update_qa
    rw [h2]
    simp [h1, h3, h4, h5, h6, h7, h8, h9, h10]

/-- Witness for `C6_update_qa_noop_amended`: the same concrete no-change
update (question a whitespace variant of the stored one, answer absent)
against both implementations. -/
theorem C6_update_qa_noop_amended_witness :
    MainApp.update_qa [⟨"L1", "KB", [⟨"Algebra", [⟨"q1", "Q1", "A1"⟩]⟩]⟩]
        ⟨"L1", "Algebra", "q1", some " Q1 ", none⟩ =
      .ok (("No changes detected.", ⟨"q1", "Q1", "A1"⟩),
           [⟨"L1", "KB", [⟨"Algebra", [⟨"q1", "Q1", "A1"⟩]⟩]⟩], [])
    ∧ Routes.update_qa stC3 ⟨"L1", "Algebra", "q1", some " Q1 ", none⟩ =
      .error (500, "AttributeError: 'QAPairDB' object has no attribute 'order'") :=
  ⟨C6_update_qa_noop_amended.1 [⟨"L1", "KB", [⟨"Algebra", [⟨"q1", "Q1", "A1"⟩]⟩]⟩]
      ⟨"L1", "Algebra", "q1", some " Q1 ", none⟩
      ⟨"L1", "KB", [⟨"Algebra", [⟨"q1", "Q1", "A1"⟩]⟩]⟩ 0 ⟨"q1", "Q1", "A1"⟩
      (by decide) (by decide) (by decide) (by decide) (by decide) (by decide)
      (by decide) (by decide) (by decide),
   C6_update_qa_noop_amended.2 stC3 ⟨"L1", "Algebra", "q1", some " Q1 ", none⟩
      ⟨1, "L1", "Calculus"⟩ ⟨1, "Algebra", some 1⟩ ⟨1, "q1", "Q1", "A1", 1, some 1⟩
      (by decide) (by decide) (by decide) (by decide) (by decide) (by decide)
      (by decide) (by decide) (by decide) (by decide)⟩

/-- C7: a move whose destination title resolves (case-insensitively, after
strip) to the card's current cluster short-circuits: success response whose
message reports that no action was taken, the store unchanged and no
broadcast.  Because the returned store is the input store, an immediate
repetition of the call is the very same function application and returns
the identical result. -/
theorem C7_move_same_cluster_noop :
    ∀ (st : Store) (cluster_list_id qa_id new_cluster_title : String)
      (cl : ClusterListDB) (qa : QAPairDB) (dest : ClusterDB),
      strEmpty (pyStrip new_cluster_title) = false →
      DatabaseService.get_cluster_list_by_id st cluster_list_id = some cl →
      DatabaseService.get_qa_pair_by_id st qa_id = some qa →
      DatabaseService.get_cluster_by_title st cl.id (pyStrip new_cluster_title) = some dest →
      qa.cluster_id = some dest.id →
      ∃ resp, Routes.move_qa_to_cluster st cluster_list_id qa_id new_cluster_title =
          .ok (resp, st, [])
        ∧ resp.message = "Source and destination clusters are the same. No action taken."
        ∧ resp.qa_id = qa_id
        ∧ resp.new_cluster_title = pyStrip new_cluster_title := by
  intro st cluster_list_id qa_id new_cluster_title cl qa dest h1 h2 h3 h4 h5
  unfold Routes.move_qa_to_cluster
  rw [h2, h3]
  simp [h1, h4, h5]

/-- Witness for `C7_move_same_cluster_noop`: moving `q1` to a case variant
of its own cluster title. -/
theorem C7_move_same_cluster_noop_witness :
    ∃ resp, Routes.move_qa_to_cluster stC3 "L1" "q1" " aLgEbRa " = .ok (resp, stC3, [])
      ∧ resp.message = "Source and destination clusters are the same. No action taken."
      ∧ resp.qa_id = "q1"
      ∧ resp.new_cluster_title = pyStrip " aLgEbRa " :=
  C7_move_same_cluster_noop stC3 "L1" "q1" " aLgEbRa "
    ⟨1, "L1", "Calculus"⟩ ⟨1, "q1", "Q1", "A1", 1, some 1⟩ ⟨1, "Algebra", some 1⟩
    (by decide) (by decide) (by decide) (by decide) (by decide)

/-- C8: on an existing list and cluster, a supplied id sequence that is not
a permutation of the cluster's current (duplicate-free) card-id sequence —
extra ids, missing ids, or wrong multiplicity — is always rejected with
HTTP 400 "Mismatched QA items during reorder", whatever its order.  A
raised error leaves the store untouched by construction of the model. -/
theorem C8_reorder_mismatch_rejected :
    ∀ (st : Store) (lid title : String) (ids : List String)
      (cl : ClusterListDB) (cluster : ClusterDB),
      DatabaseService.get_cluster_list_by_id st lid = some cl →
      DatabaseService.get_cluster_by_title st cl.id title = some cluster →
      ((DatabaseService.cluster_qas st cluster).map QAPairDB.qa_id).Nodup →
      ¬ List.Perm ids ((DatabaseService.cluster_qas st cluster).map QAPairDB.qa_id) →
      Routes.reorder_qas_in_cluster st lid title ids =
        .error (400, "Mismatched QA items during reorder") := by
  intro st lid title ids cl cluster h1 h2 hnd hnp
  unfold Routes.reorder_qas_in_cluster
  rw [h1]
  simp only [h2]
  split
  · rfl
  · next hcond =>
    exfalso
    apply hnp
    simp only [Bool.or_eq_true, not_or, Bool.not_eq_true] at hcond
    obtain ⟨ha, hbb⟩ := hcond
    have hlen : ids.length = (DatabaseService.cluster_qas st cluster).length := by
      simpa using ha
    have hcd : ((ids.all fun i =>
          ((DatabaseService.cluster_qas st cluster).map QAPairDB.qa_id).contains i) &&
        ((DatabaseService.cluster_qas st cluster).map QAPairDB.qa_id).all fun i =>
          ids.contains i) = true := by
      revert hbb
      cases ((ids.all fun i =>
          ((DatabaseService.cluster_qas st cluster).map QAPairDB.qa_id).contains i) &&
        ((DatabaseService.cluster_qas st cluster).map QAPairDB.qa_id).all fun i =>
          ids.contains i) <;> simp
    rw [Bool.and_eq_true] at hcd
    obtain ⟨hc, hd⟩ := hcd
    have hsub1 : ∀ x ∈ ids, x ∈ (DatabaseService.cluster_qas st cluster).map QAPairDB.qa_id := by
      intro x hx
      have := (List.all_eq_true.mp hc) x hx
      simpa using this
    have hsub2 : ∀ x ∈ (DatabaseService.cluster_qas st cluster).map QAPairDB.qa_id, x ∈ ids := by
      intro x hx
      have := (List.all_eq_true.mp hd) x hx
      simpa using this
    have hfin : ids.toFinset =
        ((DatabaseService.cluster_qas st cluster).map QAPairDB.qa_id).toFinset := by
      ext a
      simp only [List.mem_toFinset]
      exact ⟨fun h => hsub1 a h, fun h => hsub2 a h⟩
    have hlen2 : ids.length =
        ((DatabaseService.cluster_qas st cluster).map QAPairDB.qa_id).length := by
      simpa using hlen
    have hcard : ids.toFinset.card = ids.length := by
      rw [hfin, List.toFinset_card_of_nodup hnd, hlen2]
    have hidnodup : ids.Nodup := by
      have hdl : ids.dedup.length = ids.length := by
        rw [← List.card_toFinset]; exact hcard
      exact List.dedup_eq_self.mp (List.Sublist.eq_of_length ids.dedup_sublist hdl)
    exact List.perm_of_nodup_nodup_toFinset_eq hidnodup hnd hfin

/-- Witness for `C8_reorder_mismatch_rejected`: supplying only `q1` for a
cluster holding `q1` and `q2`. -/
theorem C8_reorder_mismatch_rejected_witness :
    Routes.reorder_qas_in_cluster stC3 "L1" "Algebra" ["q1"] =
      .error (400, "Mismatched QA items during reorder") :=
  C8_reorder_mismatch_rejected stC3 "L1" "Algebra" ["q1"]
    ⟨1, "L1", "Calculus"⟩ ⟨1, "Algebra", some 1⟩
    (by decide) (by decide) (by decide) (by decide)

/-- The dispatch step never changes what the HTTP caller observes. -/
theorem callerView_runWithDispatch {α : Type}
    (channel : Option (BroadcastMsg → PublishResult))
    (r : Except HErr (α × Store × List BroadcastMsg)) :
    callerView (runWithDispatch channel r) = r.map (fun x => (x.1, x.2.1)) := by
  cases r <;> rfl

/-- An always-failing publisher produces one swallowed failure log per
message and nothing else. -/
theorem dispatchAll_failed (e : String) :
    ∀ msgs : List BroadcastMsg,
      dispatchAll (some (fun _ => PublishResult.failed e)) msgs =
        msgs.map (fun _ => "Failed to broadcast message via Ably: " ++ e) := by
  intro msgs
  induction msgs with
  | nil => rfl
  | cons m ms ih => simp [dispatchAll, broadcast] at ih ⊢; exact ih

/-- C9: for every mutation route, the caller-visible outcome (response and
committed store) with a publisher that throws on EVERY publish equals the
route's own committed result: the state change is committed before dispatch
(`runWithDispatch` maps over the already-committed result), the dispatcher
catches every publish exception and turns it into a log line, and no error
is ever surfaced. -/
theorem C9_publish_failure_never_surfaces :
    ∀ (st : Store) (lid qid title cname e : String)
      (payload_u : Routes.UpdateQARequest) (payload_a : Routes.AddQARequest)
      (fc fq : Nat) (fid : String),
      callerView (runWithDispatch (some (fun _ => PublishResult.failed e))
          (Routes.move_qa_to_cluster st lid qid title)) =
        (Routes.move_qa_to_cluster st lid qid title).map (fun x => (x.1, x.2.1))
      ∧ callerView (runWithDispatch (some (fun _ => PublishResult.failed e))
          (Routes.delete_cluster st cname lid)) =
        (Routes.delete_cluster st cname lid).map (fun x => (x.1, x.2.1))
      ∧ callerView (runWithDispatch (some (fun _ => PublishResult.failed e))
          (Routes.update_qa st payload_u)) =
        (Routes.update_qa st payload_u).map (fun x => (x.1, x.2.1))
      ∧ callerView (runWithDispatch (some (fun _ => PublishResult.failed e))
          (Routes.add_qa st fc fq fid payload_a)) =
        (Routes.add_qa st fc fq fid payload_a).map (fun x => (x.1, x.2.1))
      ∧ callerView (runWithDispatch (some (fun _ => PublishResult.failed e))
          (Routes.reorder_qas_in_cluster st lid title [])) =
        (Routes.reorder_qas_in_cluster st lid title []).map (fun x => (x.1, x.2.1))
      ∧ (∀ msgs : List BroadcastMsg,
          dispatchAll (some (fun _ => PublishResult.failed e)) msgs =
            msgs.map (fun _ => "Failed to broadcast message via Ably: " ++ e)) :=
  fun _ _ _ _ _ e _ _ _ _ _ =>
    ⟨callerView_runWithDispatch _ _, callerView_runWithDispatch _ _,
     callerView_runWithDispatch _ _, callerView_runWithDispatch _ _,
     callerView_runWithDispatch _ _, dispatchAll_failed e⟩

/-- C10: `move_qa_to_cluster` resolves the card through the global
`qa_id` index and never checks that the card's current cluster belongs to
the list named in the request: whenever the list exists, the card id exists
anywhere in the store, and the destination title resolves within the named
list to a cluster other than the card's current one, the move succeeds and
the card's row is reparented to the destination cluster — also when the
card's current cluster sits in a different cluster list (see the witness). -/
theorem C10_move_ignores_list_membership :
    ∀ (st : Store) (lid qid title : String)
      (cl : ClusterListDB) (qa : QAPairDB) (dest : ClusterDB),
      strEmpty (pyStrip title) = false →
      DatabaseService.get_cluster_list_by_id st lid = some cl →
      DatabaseService.get_qa_pair_by_id st qid = some qa →
      DatabaseService.get_cluster_by_title st cl.id (pyStrip title) = some dest →
      (qa.cluster_id == some dest.id) = false →
      ∃ resp, Routes.move_qa_to_cluster st lid qid title =
          .ok (resp, DatabaseService.move_qa_pair st qa dest,
               [{ type := "cluster_list_update", action := none, list_id := lid }])
        ∧ resp.message =
            "Moved Q/A from '" ++ resp.old_cluster_title ++ "' to '" ++ pyStrip title ++ "'."
        ∧ ∀ q ∈ (DatabaseService.move_qa_pair st qa dest).qas,
            q.id = qa.id → q.cluster_id = some dest.id := by
  intro st lid qid title cl qa dest h1 h2 h3 h4 h5
  unfold Routes.move_qa_to_cluster
  rw [h2, h3]
  simp only [h1, Bool.false_eq_true, if_false]
  rw [h4]
  simp only [h5, Bool.false_eq_true, if_false]
  refine ⟨_, rfl, rfl, ?_⟩
  intro q hq hid
  unfold DatabaseService.move_qa_pair at hq
  rcases List.mem_map.mp hq with ⟨q0, hq0, rfl⟩
  by_cases hb : (q0.id == qa.id) = true
  · simp [hb]
  · simp only [hb, Bool.false_eq_true, if_false] at hid ⊢
    exact absurd (beq_iff_eq.mpr hid) hb

/-- Witness for `C10_move_ignores_list_membership`: the card `q1` currently
sits in cluster `Src` (id 1), which belongs to list `L2`, yet the move
request names list `L1`; the move succeeds and reparents `q1` into `Dst`
(id 2) of `L1`, across lists. -/
theorem C10_move_ignores_list_membership_witness :
    ∃ resp, Routes.move_qa_to_cluster
        { cluster_lists := [⟨1, "L1", "A-list"⟩, ⟨2, "L2", "B-list"⟩],
          clusters := [⟨1, "Src", some 2⟩, ⟨2, "Dst", some 1⟩],
          qas := [⟨1, "q1", "Q", "A", 1, some 1⟩] } "L1" "q1" "Dst" =
        .ok (resp, DatabaseService.move_qa_pair
              { cluster_lists := [⟨1, "L1", "A-list"⟩, ⟨2, "L2", "B-list"⟩],
                clusters := [⟨1, "Src", some 2⟩, ⟨2, "Dst", some 1⟩],
                qas := [⟨1, "q1", "Q", "A", 1, some 1⟩] }
              ⟨1, "q1", "Q", "A", 1, some 1⟩ ⟨2, "Dst", some 1⟩,
             [{ type := "cluster_list_update", action := none, list_id := "L1" }])
      ∧ resp.message =
          "Moved Q/A from '" ++ resp.old_cluster_title ++ "' to '" ++ pyStrip "Dst" ++ "'."
      ∧ ∀ q ∈ (DatabaseService.move_qa_pair
            { cluster_lists := [⟨1, "L1", "A-list"⟩, ⟨2, "L2", "B-list"⟩],
              clusters := [⟨1, "Src", some 2⟩, ⟨2, "Dst", some 1⟩],
              qas := [⟨1, "q1", "Q", "A", 1, some 1⟩] }
            ⟨1, "q1", "Q", "A", 1, some 1⟩ ⟨2, "Dst", some 1⟩).qas,
          q.id = 1 → q.cluster_id = some 2 :=
  C10_move_ignores_list_membership
    { cluster_lists := [⟨1, "L1", "A-list"⟩, ⟨2, "L2", "B-list"⟩],
      clusters := [⟨1, "Src", some 2⟩, ⟨2, "Dst", some 1⟩],
      qas := [⟨1, "q1", "Q", "A", 1, some 1⟩] } "L1" "q1" "Dst"
    ⟨1, "L1", "A-list"⟩ ⟨1, "q1", "Q", "A", 1, some 1⟩ ⟨2, "Dst", some 1⟩
    (by decide) (by decide) (by decide) (by decide) (by decide)
